import Mathlib

/-!
Verification of the electromagnetic plane-wave field evaluator
(`src/em_wave/fields.py`): the `Medium` model, its preset constants, and
`plane_wave_snapshot`, embedded shallowly over the reals.  Numpy 1-D arrays
become lists of reals; the array rank (`ndim`) that the shape check inspects
is carried explicitly; raised `ValueError`s become `Except.error` with the
same message strings; the two 3×N field matrices become functions from
`Fin 3` to rows, built from all-zero rows by row assignment exactly as the
source mutates `np.zeros((3, N))`.
-/

namespace EMWave

/-- Properties of a propagation medium (`Medium` dataclass). -/
structure Medium where
  name : String
  refractive_index : ℝ
  permittivity_relative : ℝ
  permeability_relative : ℝ

/-- Relative propagation speed compared to vacuum (c = 1): `1.0 / refractive_index`. -/
noncomputable def Medium.propagation_speed_relative (m : Medium) : ℝ :=
  1.0 / m.refractive_index

/-- Relative impedance compared to vacuum: `sqrt(permeability_relative / permittivity_relative)`. -/
noncomputable def Medium.impedance_relative (m : Medium) : ℝ :=
  Real.sqrt (m.permeability_relative / m.permittivity_relative)

/-- Preset medium `VACUUM = Medium("Vacuum", 1.0, 1.0, 1.0)`. -/
noncomputable def VACUUM : Medium := ⟨"Vacuum", 1.0, 1.0, 1.0⟩

/-- Preset medium `AIR = Medium("Air", 1.0003, 1.0006, 1.0000004)`. -/
noncomputable def AIR : Medium := ⟨"Air", 1.0003, 1.0006, 1.0000004⟩

/-- Preset medium `WATER = Medium("Water", 1.33, 1.77, 1.0)`. -/
noncomputable def WATER : Medium := ⟨"Water", 1.33, 1.77, 1.0⟩

/-- Preset medium `GLASS = Medium("Glass", 1.5, 2.25, 1.0)`. -/
noncomputable def GLASS : Medium := ⟨"Glass", 1.5, 2.25, 1.0⟩

/-- Preset medium `DIAMOND = Medium("Diamond", 2.4, 5.76, 1.0)`. -/
noncomputable def DIAMOND : Medium := ⟨"Diamond", 2.4, 5.76, 1.0⟩

/-- A numpy array as the evaluator sees it: its rank (`ndim`) and, for the
rank-1 arrays the evaluator accepts, its flat data.  Only `ndim` is inspected
by validation; the data is read only after the `ndim == 1` check passes. -/
structure NDArray where
  ndim : ℕ
  data : List ℝ

/-- Snapshot of the electric and magnetic fields along a 1D slice
(`FieldSnapshot` dataclass): positions of shape (N,), electric and magnetic
matrices of shape (3, N), the three rows indexed by `Fin 3`. -/
structure FieldSnapshot where
  positions : List ℝ
  electric : Fin 3 → List ℝ
  magnetic : Fin 3 → List ℝ

/-- Return individual electric field components (Ex, Ey, Ez). -/
def FieldSnapshot.components (s : FieldSnapshot) : List ℝ × List ℝ × List ℝ :=
  (s.electric 0, s.electric 1, s.electric 2)

/-- Return individual magnetic field components (Bx, By, Bz). -/
def FieldSnapshot.magnetic_components (s : FieldSnapshot) : List ℝ × List ℝ × List ℝ :=
  (s.magnetic 0, s.magnetic 1, s.magnetic 2)

/-- Compute the electric and magnetic fields for a monochromatic plane wave
(`plane_wave_snapshot`).  Mirrors the source line by line: the shape check,
the polarization check, `k = 2π/wavelength`, `v = medium speed`,
`ω = k·v`, the element-wise argument `k·x − ω·t + phase`, two all-zero
3×N matrices, and one row-assignment branch per polarization. -/
noncomputable def plane_wave_snapshot (positions : NDArray) (time : ℝ)
    (phase : ℝ) (wavelength : ℝ) (electric_amplitude : ℝ)
    (medium : Medium) (polarization : String) : Except String FieldSnapshot :=
  if positions.ndim ≠ 1 then
    Except.error "positions must be a 1D array of x-coordinates"
  else if polarization ∉ ["linear-y", "linear-z", "circular-right", "circular-left"] then
    Except.error ("Invalid polarization: " ++ polarization)
  else
    let k : ℝ := 2 * Real.pi / wavelength
    let propagation_speed : ℝ := medium.propagation_speed_relative
    let omega : ℝ := k * propagation_speed
    let argRow : List ℝ := positions.data.map fun x => k * x - omega * time + phase
    let electric : Fin 3 → List ℝ := fun _ => List.replicate positions.data.length 0
    let magnetic : Fin 3 → List ℝ := fun _ => List.replicate positions.data.length 0
    if polarization = "linear-y" then
      Except.ok ⟨positions.data,
        Function.update electric 1 (argRow.map fun a => electric_amplitude * Real.sin a),
        Function.update magnetic 2
          (argRow.map fun a => electric_amplitude / propagation_speed * Real.sin a)⟩
    else if polarization = "linear-z" then
      Except.ok ⟨positions.data,
        Function.update electric 2 (argRow.map fun a => electric_amplitude * Real.sin a),
        Function.update magnetic 1
          (argRow.map fun a => -(electric_amplitude / propagation_speed) * Real.sin a)⟩
    else if polarization = "circular-right" then
      Except.ok ⟨positions.data,
        Function.update
          (Function.update electric 1 (argRow.map fun a => electric_amplitude * Real.cos a))
          2 (argRow.map fun a => electric_amplitude * Real.sin a),
        Function.update
          (Function.update magnetic 1
            (argRow.map fun a => -(electric_amplitude / propagation_speed) * Real.sin a))
          2 (argRow.map fun a => electric_amplitude / propagation_speed * Real.cos a)⟩
    else if polarization = "circular-left" then
      Except.ok ⟨positions.data,
        Function.update
          (Function.update electric 1 (argRow.map fun a => electric_amplitude * Real.cos a))
          2 (argRow.map fun a => -electric_amplitude * Real.sin a),
        Function.update
          (Function.update magnetic 1
            (argRow.map fun a => electric_amplitude / propagation_speed * Real.sin a))
          2 (argRow.map fun a => electric_amplitude / propagation_speed * Real.cos a)⟩
    else
      Except.ok ⟨positions.data, electric, magnetic⟩

/-- The scalar phase argument θ(x) = k·x − ω·t + phase with k = 2π/wavelength
and ω = k·v, written exactly as the source computes it. -/
noncomputable def waveArg (wavelength v time phase x : ℝ) : ℝ :=
  2 * Real.pi / wavelength * x - 2 * Real.pi / wavelength * v * time + phase

lemma waveArg_eta (wavelength v time phase : ℝ) :
    waveArg wavelength v time phase =
      fun x => 2 * Real.pi / wavelength * x - 2 * Real.pi / wavelength * v * time + phase :=
  rfl

/-- All-zero row of length n, one row of `np.zeros((3, N))`. -/
def zeroRow (n : ℕ) : List ℝ :=
  List.replicate n 0

/-- The Ey column of the §4.2 polarization table, transcribed from the spec:
linear-y ↦ `A·sin(θ)`, linear-z ↦ `0`, circular-right ↦ `A·cos(θ)`,
circular-left ↦ `A·cos(θ)`. -/
noncomputable def spec_Ey (A : ℝ) (pol : String) (θ : ℝ) : ℝ :=
  if pol = "linear-y" then A * Real.sin θ
  else if pol = "linear-z" then 0
  else if pol = "circular-right" then A * Real.cos θ
  else if pol = "circular-left" then A * Real.cos θ
  else 0

/-- The Ez column of the §4.2 polarization table, transcribed from the spec:
linear-y ↦ `0`, linear-z ↦ `A·sin(θ)`, circular-right ↦ `A·sin(θ)`,
circular-left ↦ `−A·sin(θ)`. -/
noncomputable def spec_Ez (A : ℝ) (pol : String) (θ : ℝ) : ℝ :=
  if pol = "linear-y" then 0
  else if pol = "linear-z" then A * Real.sin θ
  else if pol = "circular-right" then A * Real.sin θ
  else if pol = "circular-left" then -A * Real.sin θ
  else 0

/-- The By column of the §4.2 polarization table, transcribed from the spec:
linear-y ↦ `0`, linear-z ↦ `−(A/v)·sin(θ)`, circular-right ↦ `−(A/v)·sin(θ)`,
circular-left ↦ `(A/v)·sin(θ)`. -/
noncomputable def spec_By (A v : ℝ) (pol : String) (θ : ℝ) : ℝ :=
  if pol = "linear-y" then 0
  else if pol = "linear-z" then -(A / v) * Real.sin θ
  else if pol = "circular-right" then -(A / v) * Real.sin θ
  else if pol = "circular-left" then A / v * Real.sin θ
  else 0

/-- The Bz column of the §4.2 polarization table, transcribed from the spec:
linear-y ↦ `(A/v)·sin(θ)`, linear-z ↦ `0`, circular-right ↦ `(A/v)·cos(θ)`,
circular-left ↦ `(A/v)·cos(θ)`. -/
noncomputable def spec_Bz (A v : ℝ) (pol : String) (θ : ℝ) : ℝ :=
  if pol = "linear-y" then A / v * Real.sin θ
  else if pol = "linear-z" then 0
  else if pol = "circular-right" then A / v * Real.cos θ
  else if pol = "circular-left" then A / v * Real.cos θ
  else 0

lemma pws_shape_error (pos : NDArray) (time phase wavelength A : ℝ) (m : Medium)
    (pol : String) (h : pos.ndim ≠ 1) :
    plane_wave_snapshot pos time phase wavelength A m pol =
      Except.error "positions must be a 1D array of x-coordinates" := by
  simp [plane_wave_snapshot, h]

lemma pws_pol_error (pos : NDArray) (time phase wavelength A : ℝ) (m : Medium)
    (pol : String) (h : pos.ndim = 1)
    (hp : pol ∉ ["linear-y", "linear-z", "circular-right", "circular-left"]) :
    plane_wave_snapshot pos time phase wavelength A m pol =
      Except.error ("Invalid polarization: " ++ pol) := by
  simp [plane_wave_snapshot, h, hp]

lemma pws_linear_y (pos : NDArray) (time phase wavelength A : ℝ) (m : Medium)
    (h : pos.ndim = 1) :
    plane_wave_snapshot pos time phase wavelength A m "linear-y" =
      Except.ok ⟨pos.data,
        Function.update (fun _ => zeroRow pos.data.length) 1
          ((pos.data.map (waveArg wavelength m.propagation_speed_relative time phase)).map
            fun a => A * Real.sin a),
        Function.update (fun _ => zeroRow pos.data.length) 2
          ((pos.data.map (waveArg wavelength m.propagation_speed_relative time phase)).map
            fun a => A / m.propagation_speed_relative * Real.sin a)⟩ := by
  simp [plane_wave_snapshot, h, waveArg_eta, zeroRow]

lemma pws_linear_z (pos : NDArray) (time phase wavelength A : ℝ) (m : Medium)
    (h : pos.ndim = 1) :
    plane_wave_snapshot pos time phase wavelength A m "linear-z" =
      Except.ok ⟨pos.data,
        Function.update (fun _ => zeroRow pos.data.length) 2
          ((pos.data.map (waveArg wavelength m.propagation_speed_relative time phase)).map
            fun a => A * Real.sin a),
        Function.update (fun _ => zeroRow pos.data.length) 1
          ((pos.data.map (waveArg wavelength m.propagation_speed_relative time phase)).map
            fun a => -(A / m.propagation_speed_relative) * Real.sin a)⟩ := by
  simp [plane_wave_snapshot, h, waveArg_eta, zeroRow]

lemma pws_circular_right (pos : NDArray) (time phase wavelength A : ℝ) (m : Medium)
    (h : pos.ndim = 1) :
    plane_wave_snapshot pos time phase wavelength A m "circular-right" =
      Except.ok ⟨pos.data,
        Function.update
          (Function.update (fun _ => zeroRow pos.data.length) 1
            ((pos.data.map (waveArg wavelength m.propagation_speed_relative time phase)).map
              fun a => A * Real.cos a)) 2
          ((pos.data.map (waveArg wavelength m.propagation_speed_relative time phase)).map
            fun a => A * Real.sin a),
        Function.update
          (Function.update (fun _ => zeroRow pos.data.length) 1
            ((pos.data.map (waveArg wavelength m.propagation_speed_relative time phase)).map
              fun a => -(A / m.propagation_speed_relative) * Real.sin a)) 2
          ((pos.data.map (waveArg wavelength m.propagation_speed_relative time phase)).map
            fun a => A / m.propagation_speed_relative * Real.cos a)⟩ := by
  simp [plane_wave_snapshot, h, waveArg_eta, zeroRow]

lemma pws_circular_left (pos : NDArray) (time phase wavelength A : ℝ) (m : Medium)
    (h : pos.ndim = 1) :
    plane_wave_snapshot pos time phase wavelength A m "circular-left" =
      Except.ok ⟨pos.data,
        Function.update
          (Function.update (fun _ => zeroRow pos.data.length) 1
            ((pos.data.map (waveArg wavelength m.propagation_speed_relative time phase)).map
              fun a => A * Real.cos a)) 2
          ((pos.data.map (waveArg wavelength m.propagation_speed_relative time phase)).map
            fun a => -A * Real.sin a),
        Function.update
          (Function.update (fun _ => zeroRow pos.data.length) 1
            ((pos.data.map (waveArg wavelength m.propagation_speed_relative time phase)).map
              fun a => A / m.propagation_speed_relative * Real.sin a)) 2
          ((pos.data.map (waveArg wavelength m.propagation_speed_relative time phase)).map
            fun a => A / m.propagation_speed_relative * Real.cos a)⟩ := by
  simp [plane_wave_snapshot, h, waveArg_eta, zeroRow]

lemma pws_ok_inv (pos : NDArray) (time phase wavelength A : ℝ) (m : Medium)
    (pol : String) (s : FieldSnapshot)
    (h : plane_wave_snapshot pos time phase wavelength A m pol = Except.ok s) :
    pos.ndim = 1 ∧ pol ∈ ["linear-y", "linear-z", "circular-right", "circular-left"] := by
  by_cases h1 : pos.ndim = 1
  · refine ⟨h1, ?_⟩
    by_cases h2 : pol ∈ ["linear-y", "linear-z", "circular-right", "circular-left"]
    · exact h2
    · rw [pws_pol_error pos time phase wavelength A m pol h1 h2] at h
      exact absurd h (by simp)
  · rw [pws_shape_error pos time phase wavelength A m pol h1] at h
    exact absurd h (by simp)

lemma shape_msg_ne_pol_msg (pol : String) :
    "positions must be a 1D array of x-coordinates" ≠ "Invalid polarization: " ++ pol := by
  intro h
  have h2 : ("positions must be a 1D array of x-coordinates" : String).data =
      ("Invalid polarization: " ++ pol).data := congrArg String.data h
  rw [String.data_append] at h2
  have h3 := congrArg List.head? h2
  simp at h3

lemma abs_mul_sin_le (c a : ℝ) : |c * Real.sin a| ≤ |c| := by
  rw [abs_mul]
  exact mul_le_of_le_one_right (abs_nonneg c) (Real.abs_sin_le_one a)

lemma abs_mul_cos_le (c a : ℝ) : |c * Real.cos a| ≤ |c| := by
  rw [abs_mul]
  exact mul_le_of_le_one_right (abs_nonneg c) (Real.abs_cos_le_one a)

lemma mem_zeroRow_abs_le (c y : ℝ) (n : ℕ) (hy : y ∈ zeroRow n) : |y| ≤ |c| := by
  rcases List.eq_of_mem_replicate hy with rfl
  simp

lemma fin3_eq (j : Fin 3) : j = 0 ∨ j = 1 ∨ j = 2 := by
  revert j
  decide

/-- C8: Medium model correctness: `propagation_speed_relative` is
`1 / refractive_index` and `impedance_relative` is
`sqrt(permeability_relative / permittivity_relative)` for every medium,
doubling the refractive index halves the propagation speed, and the five
preset constants carry exactly the table values. -/
theorem C8_medium_model :
    (∀ m : Medium, m.propagation_speed_relative = 1 / m.refractive_index) ∧
    (∀ m : Medium,
      m.impedance_relative = Real.sqrt (m.permeability_relative / m.permittivity_relative)) ∧
    (∀ (nm : String) (n e u : ℝ),
      (Medium.mk nm (2 * n) e u).propagation_speed_relative =
        (Medium.mk nm n e u).propagation_speed_relative / 2) ∧
    (VACUUM.name = "Vacuum" ∧ VACUUM.refractive_index = 1.0 ∧
      VACUUM.permittivity_relative = 1.0 ∧ VACUUM.permeability_relative = 1.0) ∧
    (AIR.name = "Air" ∧ AIR.refractive_index = 1.0003 ∧
      AIR.permittivity_relative = 1.0006 ∧ AIR.permeability_relative = 1.0000004) ∧
    (WATER.name = "Water" ∧ WATER.refractive_index = 1.33 ∧
      WATER.permittivity_relative = 1.77 ∧ WATER.permeability_relative = 1.0) ∧
    (GLASS.name = "Glass" ∧ GLASS.refractive_index = 1.5 ∧
      GLASS.permittivity_relative = 2.25 ∧ GLASS.permeability_relative = 1.0) ∧
    (DIAMOND.name = "Diamond" ∧ DIAMOND.refractive_index = 2.4 ∧
      DIAMOND.permittivity_relative = 5.76 ∧ DIAMOND.permeability_relative = 1.0) := by
  refine ⟨fun m => by norm_num [Medium.propagation_speed_relative],
    fun m => rfl, fun nm n e u => ?_, ?_, ?_, ?_, ?_, ?_⟩
  · simp only [Medium.propagation_speed_relative, div_div]
    ring_nf
  all_goals exact ⟨rfl, rfl, rfl, rfl⟩

/-- C10: for an empty one-dimensional positions array and any of the four
recognized polarizations, `plane_wave_snapshot` succeeds and returns a
snapshot with empty positions and 3×0 field matrices (every row empty). -/
theorem C10_empty_positions (time phase wavelength A : ℝ) (m : Medium) (pol : String)
    (hp : pol ∈ ["linear-y", "linear-z", "circular-right", "circular-left"]) :
    plane_wave_snapshot ⟨1, []⟩ time phase wavelength A m pol =
      Except.ok ⟨[], fun _ => [], fun _ => []⟩ := by
  simp only [List.mem_cons, List.not_mem_nil, or_false] at hp
  rcases hp with rfl | rfl | rfl | rfl
  · rw [pws_linear_y ⟨1, []⟩ time phase wavelength A m rfl]
    simp [zeroRow, Function.update_eq_self_iff]
  · rw [pws_linear_z ⟨1, []⟩ time phase wavelength A m rfl]
    simp [zeroRow, Function.update_eq_self_iff]
  · rw [pws_circular_right ⟨1, []⟩ time phase wavelength A m rfl]
    simp [zeroRow, Function.update_eq_self_iff]
  · rw [pws_circular_left ⟨1, []⟩ time phase wavelength A m rfl]
    simp [zeroRow, Function.update_eq_self_iff]

/-- Witness for C10 at polarization "linear-y". -/
theorem C10_empty_positions_witness :
    ("linear-y" : String) ∈ ["linear-y", "linear-z", "circular-right", "circular-left"] ∧
    plane_wave_snapshot ⟨1, []⟩ 0 0 1 1 VACUUM "linear-y" =
      Except.ok ⟨[], fun _ => [], fun _ => []⟩ :=
  ⟨by decide, C10_empty_positions 0 0 1 1 VACUUM "linear-y" (by decide)⟩

/-- C2: every successful call returns a well-formed snapshot: positions echo
the input data in order, both 3-row matrices (rows indexed by `Fin 3`) have
every row of length `len(positions)`, and row 0 of both matrices is exactly
zero, for every time and polarization mode. -/
theorem C2_snapshot_wellformed (pos : NDArray) (time phase wavelength A : ℝ)
    (m : Medium) (pol : String) (s : FieldSnapshot)
    (h : plane_wave_snapshot pos time phase wavelength A m pol = Except.ok s) :
    s.positions = pos.data ∧
    (∀ i : Fin 3, (s.electric i).length = pos.data.length) ∧
    (∀ i : Fin 3, (s.magnetic i).length = pos.data.length) ∧
    s.electric 0 = List.replicate pos.data.length 0 ∧
    s.magnetic 0 = List.replicate pos.data.length 0 := by
  obtain ⟨h1, hp⟩ := pws_ok_inv pos time phase wavelength A m pol s h
  simp only [List.mem_cons, List.not_mem_nil, or_false] at hp
  rcases hp with rfl | rfl | rfl | rfl
  · rw [pws_linear_y pos time phase wavelength A m h1] at h
    obtain rfl : _ = s := Except.ok.inj h
    refine ⟨rfl, fun i => ?_, fun i => ?_, ?_, ?_⟩ <;>
      first
        | (fin_cases i <;> simp [Function.update, zeroRow])
        | simp [Function.update, zeroRow]
  · rw [pws_linear_z pos time phase wavelength A m h1] at h
    obtain rfl : _ = s := Except.ok.inj h
    refine ⟨rfl, fun i => ?_, fun i => ?_, ?_, ?_⟩ <;>
      first
        | (fin_cases i <;> simp [Function.update, zeroRow])
        | simp [Function.update, zeroRow]
  · rw [pws_circular_right pos time phase wavelength A m h1] at h
    obtain rfl : _ = s := Except.ok.inj h
    refine ⟨rfl, fun i => ?_, fun i => ?_, ?_, ?_⟩ <;>
      first
        | (fin_cases i <;> simp [Function.update, zeroRow])
        | simp [Function.update, zeroRow]
  · rw [pws_circular_left pos time phase wavelength A m h1] at h
    obtain rfl : _ = s := Except.ok.inj h
    refine ⟨rfl, fun i => ?_, fun i => ?_, ?_, ?_⟩ <;>
      first
        | (fin_cases i <;> simp [Function.update, zeroRow])
        | simp [Function.update, zeroRow]

/-- Witness for C2 at a concrete successful call (one sample point). -/
theorem C2_snapshot_wellformed_witness :
    plane_wave_snapshot ⟨1, []⟩ 0 0 1 1 VACUUM "linear-y" =
      Except.ok ⟨[], fun _ => [], fun _ => []⟩ ∧
    (FieldSnapshot.mk [] (fun _ => []) (fun _ => [])).positions =
      (NDArray.mk 1 []).data ∧
    (∀ i : Fin 3,
      ((FieldSnapshot.mk [] (fun _ => []) (fun _ => [])).electric i).length =
        (NDArray.mk 1 []).data.length) ∧
    (∀ i : Fin 3,
      ((FieldSnapshot.mk [] (fun _ => []) (fun _ => [])).magnetic i).length =
        (NDArray.mk 1 []).data.length) ∧
    (FieldSnapshot.mk [] (fun _ => []) (fun _ => [])).electric 0 =
      List.replicate (NDArray.mk 1 []).data.length 0 ∧
    (FieldSnapshot.mk [] (fun _ => []) (fun _ => [])).magnetic 0 =
      List.replicate (NDArray.mk 1 []).data.length 0 := by
  have hok : plane_wave_snapshot ⟨1, []⟩ 0 0 1 1 VACUUM "linear-y" =
      Except.ok ⟨[], fun _ => [], fun _ => []⟩ := by
    rw [pws_linear_y ⟨1, []⟩ 0 0 1 1 VACUUM rfl]
    simp [zeroRow, Function.update_eq_self_iff]
  exact ⟨hok, C2_snapshot_wellformed ⟨1, []⟩ 0 0 1 1 VACUUM "linear-y" _ hok⟩

/-- C9: the shape check runs before the polarization check: whenever
`positions` is not one-dimensional, the call fails with the invalid-shape
error — even for an unrecognized polarization string — and never with the
invalid-polarization error. -/
theorem C9_shape_check_first (pos : NDArray) (time phase wavelength A : ℝ)
    (m : Medium) (pol : String) (h : pos.ndim ≠ 1) :
    plane_wave_snapshot pos time phase wavelength A m pol =
      Except.error "positions must be a 1D array of x-coordinates" ∧
    plane_wave_snapshot pos time phase wavelength A m pol ≠
      Except.error ("Invalid polarization: " ++ pol) := by
  refine ⟨pws_shape_error pos time phase wavelength A m pol h, ?_⟩
  rw [pws_shape_error pos time phase wavelength A m pol h]
  exact fun hcon => shape_msg_ne_pol_msg pol (Except.error.inj hcon)

/-- Witness for C9 at a 2-D positions array and an unrecognized polarization. -/
theorem C9_shape_check_first_witness :
    (NDArray.mk 2 []).ndim ≠ 1 ∧
    (plane_wave_snapshot ⟨2, []⟩ 0 0 1 1 VACUUM "elliptical" =
        Except.error "positions must be a 1D array of x-coordinates" ∧
      plane_wave_snapshot ⟨2, []⟩ 0 0 1 1 VACUUM "elliptical" ≠
        Except.error ("Invalid polarization: " ++ "elliptical")) :=
  ⟨by decide, C9_shape_check_first ⟨2, []⟩ 0 0 1 1 VACUUM "elliptical" (by decide)⟩

/-- Counterexample to C3 as stated: with a 2-D positions array and the
unrecognized polarization "elliptical", the polarization is invalid yet the
call raises the invalid-shape error, not the invalid-polarization error, so
"raises the invalid-polarization error iff polarization is unrecognized"
fails right-to-left. -/
theorem C3_counterexample :
    ("elliptical" : String) ∉ ["linear-y", "linear-z", "circular-right", "circular-left"] ∧
    plane_wave_snapshot ⟨2, []⟩ 0 0 1 1 VACUUM "elliptical" =
      Except.error "positions must be a 1D array of x-coordinates" ∧
    plane_wave_snapshot ⟨2, []⟩ 0 0 1 1 VACUUM "elliptical" ≠
      Except.error ("Invalid polarization: " ++ "elliptical") := by
  refine ⟨by decide, pws_shape_error _ 0 0 1 1 VACUUM _ (by decide), ?_⟩
  rw [pws_shape_error _ 0 0 1 1 VACUUM _ (by decide)]
  exact fun hcon => shape_msg_ne_pol_msg "elliptical" (Except.error.inj hcon)

/-- C3 amended: the invalid-shape error is raised iff positions is not 1-D;
the invalid-polarization error is raised iff positions is 1-D and the
polarization is not one of the four recognized literals (on non-1-D input the
shape error wins, per C9); and the call succeeds iff positions is 1-D and the
polarization is recognized. -/
theorem C3_validation_amended (pos : NDArray) (time phase wavelength A : ℝ)
    (m : Medium) (pol : String) :
    (plane_wave_snapshot pos time phase wavelength A m pol =
        Except.error "positions must be a 1D array of x-coordinates" ↔
      pos.ndim ≠ 1) ∧
    (plane_wave_snapshot pos time phase wavelength A m pol =
        Except.error ("Invalid polarization: " ++ pol) ↔
      pos.ndim = 1 ∧
        pol ∉ ["linear-y", "linear-z", "circular-right", "circular-left"]) ∧
    ((∃ s, plane_wave_snapshot pos time phase wavelength A m pol = Except.ok s) ↔
      pos.ndim = 1 ∧
        pol ∈ ["linear-y", "linear-z", "circular-right", "circular-left"]) := by
  by_cases h1 : pos.ndim = 1
  · by_cases h2 : pol ∈ ["linear-y", "linear-z", "circular-right", "circular-left"]
    · have hok : ∃ s, plane_wave_snapshot pos time phase wavelength A m pol =
          Except.ok s := by
        have h2m := h2
        simp only [List.mem_cons, List.not_mem_nil, or_false] at h2m
        rcases h2m with rfl | rfl | rfl | rfl
        exacts [⟨_, pws_linear_y pos time phase wavelength A m h1⟩,
          ⟨_, pws_linear_z pos time phase wavelength A m h1⟩,
          ⟨_, pws_circular_right pos time phase wavelength A m h1⟩,
          ⟨_, pws_circular_left pos time phase wavelength A m h1⟩]
      obtain ⟨s, hs⟩ := hok
      refine ⟨?_, ?_, ?_⟩ <;> simp [hs, h1, h2]
    · have he := pws_pol_error pos time phase wavelength A m pol h1 h2
      refine ⟨?_, ?_, ?_⟩
      · rw [he]
        simp only [h1, ne_eq, not_true_eq_false, iff_false]
        exact fun hcon => shape_msg_ne_pol_msg pol (Except.error.inj hcon).symm
      · simp [he, h1, h2]
      · simp [he, h2]
  · have he := pws_shape_error pos time phase wavelength A m pol h1
    refine ⟨?_, ?_, ?_⟩
    · simp [he, h1]
    · rw [he]
      simp only [h1, false_and, iff_false]
      exact fun hcon => shape_msg_ne_pol_msg pol (Except.error.inj hcon)
    · simp [he, h1]

/-- C1: on 1-D positions and any of the four polarization modes, the snapshot
rows are exactly the §4.2 table applied to the per-sample phase argument
`θ(x) = k·x − ω·t + phase` (with `k = 2π/wavelength`, `ω = k·v`; see
`waveArg`): row 0 of both matrices is zero and rows 1 and 2 are the table
columns Ey, Ez, By, Bz given by `spec_Ey`, `spec_Ez`, `spec_By`, `spec_Bz`. -/
theorem C1_polarization_table (pos : NDArray) (time phase wavelength A : ℝ)
    (m : Medium) (pol : String) (h : pos.ndim = 1)
    (hp : pol ∈ ["linear-y", "linear-z", "circular-right", "circular-left"]) :
    ∃ s : FieldSnapshot,
      plane_wave_snapshot pos time phase wavelength A m pol = Except.ok s ∧
      s.positions = pos.data ∧
      s.electric 0 = List.replicate pos.data.length 0 ∧
      s.magnetic 0 = List.replicate pos.data.length 0 ∧
      s.electric 1 =
        (pos.data.map fun x =>
          waveArg wavelength m.propagation_speed_relative time phase x).map
          (fun a => spec_Ey A pol a) ∧
      s.electric 2 =
        (pos.data.map fun x =>
          waveArg wavelength m.propagation_speed_relative time phase x).map
          (fun a => spec_Ez A pol a) ∧
      s.magnetic 1 =
        (pos.data.map fun x =>
          waveArg wavelength m.propagation_speed_relative time phase x).map
          (fun a => spec_By A m.propagation_speed_relative pol a) ∧
      s.magnetic 2 =
        (pos.data.map fun x =>
          waveArg wavelength m.propagation_speed_relative time phase x).map
          (fun a => spec_Bz A m.propagation_speed_relative pol a) := by
  simp only [List.mem_cons, List.not_mem_nil, or_false] at hp
  rcases hp with rfl | rfl | rfl | rfl
  · refine ⟨_, pws_linear_y pos time phase wavelength A m h,
      rfl, ?_, ?_, ?_, ?_, ?_, ?_⟩ <;>
      simp [Function.update, zeroRow, spec_Ey, spec_Ez, spec_By, spec_Bz, Function.comp_def]
  · refine ⟨_, pws_linear_z pos time phase wavelength A m h,
      rfl, ?_, ?_, ?_, ?_, ?_, ?_⟩ <;>
      simp [Function.update, zeroRow, spec_Ey, spec_Ez, spec_By, spec_Bz, Function.comp_def]
  · refine ⟨_, pws_circular_right pos time phase wavelength A m h,
      rfl, ?_, ?_, ?_, ?_, ?_, ?_⟩ <;>
      simp [Function.update, zeroRow, spec_Ey, spec_Ez, spec_By, spec_Bz, Function.comp_def]
  · refine ⟨_, pws_circular_left pos time phase wavelength A m h,
      rfl, ?_, ?_, ?_, ?_, ?_, ?_⟩ <;>
      simp [Function.update, zeroRow, spec_Ey, spec_Ez, spec_By, spec_Bz, Function.comp_def]

/-- Witness for C1 at one sample point, vacuum, linear-y. -/
theorem C1_polarization_table_witness :
    (NDArray.mk 1 [0]).ndim = 1 ∧
    ("linear-y" : String) ∈ ["linear-y", "linear-z", "circular-right", "circular-left"] ∧
    (∃ s : FieldSnapshot,
      plane_wave_snapshot ⟨1, [0]⟩ 0 0 1 1 VACUUM "linear-y" = Except.ok s ∧
      s.positions = (NDArray.mk 1 [0]).data ∧
      s.electric 0 = List.replicate (NDArray.mk 1 [0]).data.length 0 ∧
      s.magnetic 0 = List.replicate (NDArray.mk 1 [0]).data.length 0 ∧
      s.electric 1 =
        ((NDArray.mk 1 [0]).data.map fun x =>
          waveArg 1 VACUUM.propagation_speed_relative 0 0 x).map
          (fun a => spec_Ey 1 "linear-y" a) ∧
      s.electric 2 =
        ((NDArray.mk 1 [0]).data.map fun x =>
          waveArg 1 VACUUM.propagation_speed_relative 0 0 x).map
          (fun a => spec_Ez 1 "linear-y" a) ∧
      s.magnetic 1 =
        ((NDArray.mk 1 [0]).data.map fun x =>
          waveArg 1 VACUUM.propagation_speed_relative 0 0 x).map
          (fun a => spec_By 1 VACUUM.propagation_speed_relative "linear-y" a) ∧
      s.magnetic 2 =
        ((NDArray.mk 1 [0]).data.map fun x =>
          waveArg 1 VACUUM.propagation_speed_relative 0 0 x).map
          (fun a => spec_Bz 1 VACUUM.propagation_speed_relative "linear-y" a)) :=
  ⟨rfl, by decide,
    C1_polarization_table ⟨1, [0]⟩ 0 0 1 1 VACUUM "linear-y" rfl (by decide)⟩

/-- Counterexample to C4 as stated: with one sample at x = 0, time 0, phase 0,
wavelength 1, amplitude 1 in vacuum (A/v = 1), the linear-y snapshot has an
all-zero magnetic matrix, so the maximum absolute value of the magnetic
component used is 0, not A/v = 1. -/
theorem C4_counterexample :
    plane_wave_snapshot ⟨1, [0]⟩ 0 0 1 1 VACUUM "linear-y" =
      Except.ok ⟨[0], fun _ => [0], fun _ => [0]⟩ ∧
    (1 : ℝ) / VACUUM.propagation_speed_relative = 1 ∧
    |(0 : ℝ)| ≠ (1 : ℝ) / VACUUM.propagation_speed_relative := by
  refine ⟨?_, ?_, ?_⟩
  · rw [pws_linear_y ⟨1, [0]⟩ 0 0 1 1 VACUUM rfl]
    simp [waveArg_eta, zeroRow, Function.update_eq_self_iff]
  · norm_num [VACUUM, Medium.propagation_speed_relative]
  · norm_num [VACUUM, Medium.propagation_speed_relative]

/-- C4 amended: for every valid input and polarization mode, the magnetic rows
are exactly the table columns scaled by A/v (`spec_By`, `spec_Bz` applied to
the phase arguments), and every magnetic sample is bounded in absolute value
by |A/v|; the maximum equals A/v only when some sample attains a unit sine or
cosine, which the claim's universal max-equality wrongly assumed always
happens. -/
theorem C4_magnetic_amplitude_amended (pos : NDArray) (time phase wavelength A : ℝ)
    (m : Medium) (pol : String) (h : pos.ndim = 1)
    (hp : pol ∈ ["linear-y", "linear-z", "circular-right", "circular-left"]) :
    ∃ s : FieldSnapshot,
      plane_wave_snapshot pos time phase wavelength A m pol = Except.ok s ∧
      s.magnetic 1 =
        (pos.data.map fun x =>
          waveArg wavelength m.propagation_speed_relative time phase x).map
          (fun a => spec_By A m.propagation_speed_relative pol a) ∧
      s.magnetic 2 =
        (pos.data.map fun x =>
          waveArg wavelength m.propagation_speed_relative time phase x).map
          (fun a => spec_Bz A m.propagation_speed_relative pol a) ∧
      ∀ i : Fin 3, ∀ y ∈ s.magnetic i, |y| ≤ |A / m.propagation_speed_relative| := by
  simp only [List.mem_cons, List.not_mem_nil, or_false] at hp
  rcases hp with rfl | rfl | rfl | rfl
  · refine ⟨_, pws_linear_y pos time phase wavelength A m h, ?_, ?_, ?_⟩
    · simp [Function.update, spec_By, zeroRow, Function.comp_def]
    · simp [Function.update, spec_Bz, Function.comp_def]
    · intro i y hy
      dsimp only at hy
      rcases fin3_eq i with rfl | rfl | rfl
      · rw [Function.update_noteq (by decide)] at hy
        exact mem_zeroRow_abs_le _ y _ hy
      · rw [Function.update_noteq (by decide)] at hy
        exact mem_zeroRow_abs_le _ y _ hy
      · rw [Function.update_same] at hy
        obtain ⟨a, -, rfl⟩ := List.mem_map.mp hy
        exact abs_mul_sin_le _ a
  · refine ⟨_, pws_linear_z pos time phase wavelength A m h, ?_, ?_, ?_⟩
    · simp [Function.update, spec_By, Function.comp_def]
    · simp [Function.update, spec_Bz, zeroRow, Function.comp_def]
    · intro i y hy
      dsimp only at hy
      rcases fin3_eq i with rfl | rfl | rfl
      · rw [Function.update_noteq (by decide)] at hy
        exact mem_zeroRow_abs_le _ y _ hy
      · rw [Function.update_same] at hy
        obtain ⟨a, -, rfl⟩ := List.mem_map.mp hy
        have hb := abs_mul_sin_le (-(A / m.propagation_speed_relative)) a
        rwa [abs_neg] at hb
      · rw [Function.update_noteq (by decide)] at hy
        exact mem_zeroRow_abs_le _ y _ hy
  · refine ⟨_, pws_circular_right pos time phase wavelength A m h, ?_, ?_, ?_⟩
    · simp [Function.update, spec_By, Function.comp_def]
    · simp [Function.update, spec_Bz, Function.comp_def]
    · intro i y hy
      dsimp only at hy
      rcases fin3_eq i with rfl | rfl | rfl
      · rw [Function.update_noteq (by decide), Function.update_noteq (by decide)] at hy
        exact mem_zeroRow_abs_le _ y _ hy
      · rw [Function.update_noteq (by decide), Function.update_same] at hy
        obtain ⟨a, -, rfl⟩ := List.mem_map.mp hy
        have hb := abs_mul_sin_le (-(A / m.propagation_speed_relative)) a
        rwa [abs_neg] at hb
      · rw [Function.update_same] at hy
        obtain ⟨a, -, rfl⟩ := List.mem_map.mp hy
        exact abs_mul_cos_le _ a
  · refine ⟨_, pws_circular_left pos time phase wavelength A m h, ?_, ?_, ?_⟩
    · simp [Function.update, spec_By, Function.comp_def]
    · simp [Function.update, spec_Bz, Function.comp_def]
    · intro i y hy
      dsimp only at hy
      rcases fin3_eq i with rfl | rfl | rfl
      · rw [Function.update_noteq (by decide), Function.update_noteq (by decide)] at hy
        exact mem_zeroRow_abs_le _ y _ hy
      · rw [Function.update_noteq (by decide), Function.update_same] at hy
        obtain ⟨a, -, rfl⟩ := List.mem_map.mp hy
        exact abs_mul_sin_le _ a
      · rw [Function.update_same] at hy
        obtain ⟨a, -, rfl⟩ := List.mem_map.mp hy
        exact abs_mul_cos_le _ a

/-- Witness for C4 amended at one sample point, vacuum, circular-right. -/
theorem C4_magnetic_amplitude_amended_witness :
    (NDArray.mk 1 [0]).ndim = 1 ∧
    ("circular-right" : String) ∈
      ["linear-y", "linear-z", "circular-right", "circular-left"] ∧
    (∃ s : FieldSnapshot,
      plane_wave_snapshot ⟨1, [0]⟩ 0 0 1 1 VACUUM "circular-right" = Except.ok s ∧
      s.magnetic 1 =
        ((NDArray.mk 1 [0]).data.map fun x =>
          waveArg 1 VACUUM.propagation_speed_relative 0 0 x).map
          (fun a => spec_By 1 VACUUM.propagation_speed_relative "circular-right" a) ∧
      s.magnetic 2 =
        ((NDArray.mk 1 [0]).data.map fun x =>
          waveArg 1 VACUUM.propagation_speed_relative 0 0 x).map
          (fun a => spec_Bz 1 VACUUM.propagation_speed_relative "circular-right" a) ∧
      ∀ i : Fin 3, ∀ y ∈ s.magnetic i,
        |y| ≤ |(1 : ℝ) / VACUUM.propagation_speed_relative|) :=
  ⟨rfl, by decide,
    C4_magnetic_amplitude_amended ⟨1, [0]⟩ 0 0 1 1 VACUUM "circular-right" rfl (by decide)⟩

/-- Counterexample to C5 as stated: for refractive_index = −2 and
wavelength = −1 (both negative, hence "such inputs" of the claim), the
propagation speed is the finite real −1/2 and the wavenumber the finite real
−2π — not non-finite values — and the evaluator still returns a normal
result. -/
theorem C5_counterexample :
    Medium.propagation_speed_relative ⟨"negative", -2, 1, 1⟩ = -(1 / 2) ∧
    2 * Real.pi / (-1 : ℝ) = -(2 * Real.pi) ∧
    plane_wave_snapshot ⟨1, [0]⟩ 0 0 (-1) 1 ⟨"negative", -2, 1, 1⟩ "linear-y" =
      Except.ok ⟨[0], fun _ => [0], fun _ => [0]⟩ := by
  refine ⟨by norm_num [Medium.propagation_speed_relative], by ring, ?_⟩
  rw [pws_linear_y ⟨1, [0]⟩ 0 0 (-1) 1 ⟨"negative", -2, 1, 1⟩ rfl]
  simp [waveArg_eta, zeroRow, Function.update_eq_self_iff]

/-- C5 amended: the core performs no guarded rejection of zero or negative
refractive_index or wavelength — every 1-D call with a recognized
polarization succeeds — and for negative refractive_index or wavelength the
propagation speed and wavenumber are finite negative reals (the claim's
"non-finite for every such input" holds at most for the zero cases, a
floating-point matter outside this real-valued model). -/
theorem C5_degenerate_unguarded_amended (pos : NDArray)
    (time phase wavelength A : ℝ) (m : Medium) (pol : String) (h : pos.ndim = 1)
    (hp : pol ∈ ["linear-y", "linear-z", "circular-right", "circular-left"]) :
    (∃ s, plane_wave_snapshot pos time phase wavelength A m pol = Except.ok s) ∧
    (m.refractive_index < 0 → m.propagation_speed_relative < 0) ∧
    (wavelength < 0 → 2 * Real.pi / wavelength < 0) := by
  refine ⟨?_, ?_, ?_⟩
  · simp only [List.mem_cons, List.not_mem_nil, or_false] at hp
    rcases hp with rfl | rfl | rfl | rfl
    exacts [⟨_, pws_linear_y pos time phase wavelength A m h⟩,
      ⟨_, pws_linear_z pos time phase wavelength A m h⟩,
      ⟨_, pws_circular_right pos time phase wavelength A m h⟩,
      ⟨_, pws_circular_left pos time phase wavelength A m h⟩]
  · intro hn
    exact div_neg_of_pos_of_neg (by norm_num) hn
  · intro hw
    exact div_neg_of_pos_of_neg (by positivity) hw

/-- Witness for C5 amended at a negative-index medium and negative wavelength. -/
theorem C5_degenerate_unguarded_amended_witness :
    (NDArray.mk 1 [0]).ndim = 1 ∧
    ("linear-y" : String) ∈ ["linear-y", "linear-z", "circular-right", "circular-left"] ∧
    ((∃ s, plane_wave_snapshot ⟨1, [0]⟩ 0 0 (-1) 1 ⟨"negative", -2, 1, 1⟩ "linear-y" =
        Except.ok s) ∧
      ((Medium.mk "negative" (-2) 1 1).refractive_index < 0 →
        (Medium.mk "negative" (-2) 1 1).propagation_speed_relative < 0) ∧
      ((-1 : ℝ) < 0 → 2 * Real.pi / (-1 : ℝ) < 0)) :=
  ⟨rfl, by decide,
    C5_degenerate_unguarded_amended ⟨1, [0]⟩ 0 0 (-1) 1 ⟨"negative", -2, 1, 1⟩
      "linear-y" rfl (by decide)⟩

/-- C6: phase-shift equivalence: evaluating at time t with phase p gives the
identical result (snapshot or error) as evaluating at time 0 with phase
p − ω·t, where ω = (2π/wavelength)·propagation_speed_relative. -/
theorem C6_phase_shift_equivalence (pos : NDArray) (time phase wavelength A : ℝ)
    (m : Medium) (pol : String) :
    plane_wave_snapshot pos time phase wavelength A m pol =
      plane_wave_snapshot pos 0
        (phase - 2 * Real.pi / wavelength * m.propagation_speed_relative * time)
        wavelength A m pol := by
  by_cases h1 : pos.ndim = 1
  · by_cases h2 : pol ∈ ["linear-y", "linear-z", "circular-right", "circular-left"]
    · have hw : waveArg wavelength m.propagation_speed_relative 0
          (phase - 2 * Real.pi / wavelength * m.propagation_speed_relative * time) =
          waveArg wavelength m.propagation_speed_relative time phase := by
        funext x
        simp only [waveArg]
        ring
      simp only [List.mem_cons, List.not_mem_nil, or_false] at h2
      rcases h2 with rfl | rfl | rfl | rfl
      · rw [pws_linear_y pos time phase wavelength A m h1,
          pws_linear_y pos 0 _ wavelength A m h1, hw]
      · rw [pws_linear_z pos time phase wavelength A m h1,
          pws_linear_z pos 0 _ wavelength A m h1, hw]
      · rw [pws_circular_right pos time phase wavelength A m h1,
          pws_circular_right pos 0 _ wavelength A m h1, hw]
      · rw [pws_circular_left pos time phase wavelength A m h1,
          pws_circular_left pos 0 _ wavelength A m h1, hw]
    · rw [pws_pol_error pos time phase wavelength A m pol h1 h2,
        pws_pol_error pos 0 _ wavelength A m pol h1 h2]
  · rw [pws_shape_error pos time phase wavelength A m pol h1,
      pws_shape_error pos 0 _ wavelength A m pol h1]

/-- C7: handedness: for identical inputs, the circular-left snapshot has the
same Ey row as circular-right, the negated Ez row, the negated By row, and
the same Bz row. -/
theorem C7_handedness (pos : NDArray) (time phase wavelength A : ℝ) (m : Medium)
    (h : pos.ndim = 1) :
    ∃ sR sL : FieldSnapshot,
      plane_wave_snapshot pos time phase wavelength A m "circular-right" =
        Except.ok sR ∧
      plane_wave_snapshot pos time phase wavelength A m "circular-left" =
        Except.ok sL ∧
      sL.electric 1 = sR.electric 1 ∧
      sL.electric 2 = (sR.electric 2).map (fun y => -y) ∧
      sL.magnetic 1 = (sR.magnetic 1).map (fun y => -y) ∧
      sL.magnetic 2 = sR.magnetic 2 := by
  refine ⟨_, _, pws_circular_right pos time phase wavelength A m h,
    pws_circular_left pos time phase wavelength A m h, ?_, ?_, ?_, ?_⟩
  · simp [Function.update]
  · simp [Function.update, List.map_map, Function.comp_def, neg_mul]
  · simp [Function.update, List.map_map, Function.comp_def, neg_mul, neg_neg]
  · simp [Function.update]

/-- Witness for C7 at one sample point in vacuum. -/
theorem C7_handedness_witness :
    (NDArray.mk 1 [0]).ndim = 1 ∧
    (∃ sR sL : FieldSnapshot,
      plane_wave_snapshot ⟨1, [0]⟩ 0 0 1 1 VACUUM "circular-right" =
        Except.ok sR ∧
      plane_wave_snapshot ⟨1, [0]⟩ 0 0 1 1 VACUUM "circular-left" =
        Except.ok sL ∧
      sL.electric 1 = sR.electric 1 ∧
      sL.electric 2 = (sR.electric 2).map (fun y => -y) ∧
      sL.magnetic 1 = (sR.magnetic 1).map (fun y => -y) ∧
      sL.magnetic 2 = sR.magnetic 2) :=
  ⟨rfl, C7_handedness ⟨1, [0]⟩ 0 0 1 1 VACUUM rfl⟩

end EMWave
